import Mathlib

/-!
# Verification of the intercom-export repository

A shallow embedding, in Lean 4, of the core of the `intercom-export` Python
repository: the Intercom API client (`src/intercom_export/api/client.py`),
the conversation data model (`src/intercom_export/models/conversation.py`)
and the formatters (`src/intercom_export/formatters/`).  Python values that
matter to the claims are modelled explicitly (dicts as association lists,
Python truthiness, exceptions as `Except`); machine-level details that the
code never exercises (floats, concurrency) are out of scope.

The file is organised as: all definitions first (the embedding), then the
theorems settling each claim.
-/

/-! ## Python-value model -/

/-- A Python conversation identifier: the ids handed to the client are either
strings or ints, and the code compares them through `str(...)`. -/
inductive Ident where
  | str (s : String)
  | num (n : Int)
deriving DecidableEq, Repr

/-- `str(...)` on an identifier. -/
def Ident.pyStr : Ident → String
  | .str s => s
  | .num n => toString n

/-- Python truthiness of an identifier (`""` and `0` are falsy). -/
def Ident.truthy : Ident → Bool
  | .str s => s ≠ ""
  | .num n => n ≠ 0

/-! ## API client embedding (`src/intercom_export/api/client.py`)

The exception hierarchy of `client.py` consists of exactly three classes:
`IntercomAPIError` (the base class, lines 18-23), `RateLimitError`
(subclass, lines 24-28, carrying an optional `retry_after`), and
`AuthenticationError` (subclass, lines 30-32).  No other error class — in
particular no `NotFoundError` — is defined anywhere in the repository.
-/

/-- The errors `IntercomClient` can raise, one constructor per exception
class of `client.py`.  `base msg` is a plain `IntercomAPIError(msg)`;
`rateLimit ra` is `RateLimitError` with its parsed `Retry-After` value;
`auth` is `AuthenticationError`. -/
inductive ApiErr where
  | base (msg : String)
  | rateLimit (retryAfter : Option Int)
  | auth
deriving DecidableEq, Repr

/-- A parsed JSON response body as the client reads it: `rid` models
`data.get("id")` and `convs` models `data.get("conversations", [])`.
Records inside `convs` are again such dicts. -/
inductive Rec where
  | mk (rid : Option Ident) (convs : List Rec)

/-- `data.get("id")`. -/
def Rec.rid : Rec → Option Ident
  | .mk r _ => r

/-- `data.get("conversations", [])`. -/
def Rec.convs : Rec → List Rec
  | .mk _ c => c

/-- Outcome of `IntercomClient._handle_response` (client.py:82-109) on one
HTTP response: a parsed JSON body on success, otherwise the raised
exception (`401` → `auth`, `429` → `rateLimit` with the parsed
`Retry-After` header, anything else non-ok → `base`). -/
inductive HResp where
  | ok (body : Rec)
  | err (e : ApiErr)

/-- The network, as the client sees it: the response handed back for the
`k`-th HTTP request of a run, whose search payload carries the given batch
of ids. -/
def Oracle := List Ident → Nat → HResp

/-- The message of the `IntercomAPIError` raised at client.py:137 when a
single-id batch comes back empty: `f"Conversation {batch[0]} not found"`. -/
def notFoundMsg (i : Ident) : String :=
  "Conversation " ++ i.pyStr ++ " not found"

/-- The wait computed at client.py:142: `e.retry_after or (2 ** attempt)`.
Python `or` falls through when `retry_after` is `None` **or** `0`. -/
def retryWait (ra : Option Int) (attempt : Nat) : Int :=
  match ra with
  | some v => if v = 0 then (2 : Int) ^ attempt else v
  | none => (2 : Int) ^ attempt

/-- The batch used on the next attempt after a rate limit (client.py:145-147):
`batch[:len(batch)//2]` when the batch has more than one id, else unchanged. -/
def halvedBatch (batch : List Ident) : List Ident :=
  if batch.length > 1 then batch.take (batch.length / 2) else batch

/-- Everything observable about one run of the retry loop: the final result
(`raise` → `.error`), the batches actually POSTed, the arguments passed to
`time.sleep`, and the request counter afterwards. -/
structure BatchOut where
  result : Except ApiErr (List Rec)
  requests : List (List Ident)
  waits : List Int
  next : Nat

/-- The inner `for attempt in range(max_attempts)` loop of
`IntercomClient.get_conversations` (client.py:130-150), for one batch.
`fuel` is the number of attempts remaining (the loop starts with 3);
`attempt` is the Python loop variable; `k` the request counter.

Per attempt: POST the batch; on a successful response raise
`IntercomAPIError` if the batch had exactly one id and no conversations
came back, otherwise collect `data.get("conversations", [])` and break.
Only `RateLimitError` is caught: when attempts remain the client sleeps
`retry_after or 2**attempt` seconds and halves a multi-id batch, otherwise
the rate-limit error propagates.  Other errors propagate immediately. -/
def batchAttempts (oracle : Oracle) : Nat → List Ident → Nat → Nat → BatchOut
  | 0, _, _, k => ⟨.ok [], [], [], k⟩
  | fuel + 1, batch, attempt, k =>
    match oracle batch k with
    | .ok body =>
      match body.convs, batch with
      | [], [b] => ⟨.error (.base (notFoundMsg b)), [batch], [], k + 1⟩
      | convs, _ => ⟨.ok convs, [batch], [], k + 1⟩
    | .err (.rateLimit ra) =>
      match fuel with
      | 0 => ⟨.error (.rateLimit ra), [batch], [], k + 1⟩
      | f + 1 =>
        let rest := batchAttempts oracle (f + 1) (halvedBatch batch) (attempt + 1) (k + 1)
        ⟨rest.result, batch :: rest.requests, retryWait ra attempt :: rest.waits, rest.next⟩
    | .err e => ⟨.error e, [batch], [], k + 1⟩

/-- `conversation_ids[i:i+batch_size]` slicing of the outer loop
(client.py:127-128), with explicit fuel to keep the recursion structural. -/
def chunksGo (bs : Nat) : Nat → List Ident → List (List Ident)
  | 0, _ => []
  | _, [] => []
  | fuel + 1, xs => xs.take bs :: chunksGo bs fuel (xs.drop bs)

/-- The list of batches the outer loop iterates over. -/
def chunksOf (bs : Nat) (xs : List Ident) : List (List Ident) :=
  chunksGo bs xs.length xs

/-- The outer loop of `get_conversations`: process each batch with the
retry loop; a raised error aborts the whole call, successes accumulate in
`all_conversations` in batch order. -/
def runChunks (oracle : Oracle) : List (List Ident) → Nat → BatchOut
  | [], k => ⟨.ok [], [], [], k⟩
  | c :: cs, k =>
    let b := batchAttempts oracle 3 c 0 k
    match b.result with
    | .error e => ⟨.error e, b.requests, b.waits, b.next⟩
    | .ok convs =>
      let rest := runChunks oracle cs b.next
      ⟨rest.result.map (fun l => convs ++ l), b.requests ++ rest.requests,
        b.waits ++ rest.waits, rest.next⟩

/-- `IntercomClient.get_conversations(conversation_ids, batch_size)`
(client.py:121-152) with an explicit (caller-specified) batch size. -/
def get_conversations (oracle : Oracle) (ids : List Ident) (batchSize : Nat) : BatchOut :=
  runChunks oracle (chunksOf batchSize ids) 0

/-- The message of the `IntercomAPIError` raised at client.py:176 when the
fallback search yields nothing. -/
def notFoundFallbackMsg (i : Ident) : String :=
  "Conversation " ++ i.pyStr ++ " not found via fallback"

/-- The id check of client.py:165:
`data and data.get("id") and str(data.get("id")) == str(conversation_id)`.
A dict whose `"id"` is present and truthy is itself truthy, so dict
truthiness reduces to the `rid` check. -/
def idMatches (body : Rec) (cid : Ident) : Bool :=
  match body.rid with
  | some i => i.truthy && (i.pyStr == cid.pyStr)
  | none => false

/-- The fallback POST of `get_conversation` (client.py:168-176): one search
request, **no** retry loop — `_handle_response` errors (including rate
limits) propagate directly; an empty result raises a plain
`IntercomAPIError` naming the id. -/
def getConversationFallback (postResp : HResp) (cid : Ident) : Except ApiErr Rec :=
  match postResp with
  | .err e => .error e
  | .ok body =>
    match body.convs with
    | c :: _ => .ok c
    | [] => .error (.base (notFoundFallbackMsg cid))

/-- `IntercomClient.get_conversation(conversation_id)` (client.py:154-176):
a direct GET whose `IntercomAPIError` (any subclass) is swallowed
(`data = None`), the id check, then the fallback search.  `getResp` and
`postResp` are the handled outcomes of the two possible HTTP requests. -/
def get_conversation (getResp postResp : HResp) (cid : Ident) : Except ApiErr Rec :=
  match getResp with
  | .err _ => getConversationFallback postResp cid
  | .ok body =>
    if idMatches body cid then .ok body
    else getConversationFallback postResp cid

/-! ## Raw JSON / Python values for the model layer

`Conversation.from_api_data` receives an arbitrary decoded-JSON dict, so
the embedding works over an explicit Python-value type.  Dicts are
association lists (insertion-ordered, unique keys — exactly what
`json.loads` produces). -/

/-- A Python value as the model layer sees it. -/
inductive PyVal where
  | none
  | bool (b : Bool)
  | int (n : Int)
  | str (s : String)
  | list (xs : List PyVal)
  | dict (kvs : List (String × PyVal))

/-- First-match association lookup: `d[k]` / `d.get(k)` on a dict's entries. -/
def pyLookup (k : String) : List (String × PyVal) → Option PyVal
  | [] => Option.none
  | (k', v) :: rest => if k' = k then some v else pyLookup k rest

/-- Python truthiness. -/
def PyVal.truthy : PyVal → Bool
  | .none => false
  | .bool b => b
  | .int n => n ≠ 0
  | .str s => s ≠ ""
  | .list xs => ¬ xs.isEmpty
  | .dict kvs => ¬ kvs.isEmpty

/-- `d.get(k, default)` on a dict's entries. -/
def pyGetD (kvs : List (String × PyVal)) (k : String) (dflt : PyVal) : PyVal :=
  (pyLookup k kvs).getD dflt

/-- `d[k] = v` on a dict's entries: override in place when the key exists,
else append (Python dict-merge order). -/
def pySetKey (kvs : List (String × PyVal)) (k : String) (v : PyVal) : List (String × PyVal) :=
  match kvs with
  | [] => [(k, v)]
  | (k', v') :: rest =>
    if k' = k then (k, v) :: rest else (k', v') :: pySetKey rest k v

/-- The exceptions the model layer can raise. -/
inductive PyErr where
  | keyError (k : String)
  | typeError
  | attributeError
deriving DecidableEq, Repr

/-! ## Timestamps

`datetime.utcfromtimestamp(n) + timedelta(hours=2)` produces a naive local
datetime; the embedding represents such a datetime by its second count
`n + 7200` (comparison, `strftime` and `isoformat` all factor through it). -/

/-- The fixed `+timedelta(hours=2)` shift applied to every timestamp
(conversation.py:39, 88, 89). -/
def tzShift : Int := 7200

/-- Gregorian civil date from a day count relative to 1970-01-01
(days-from-civil inverse, era-based algorithm). -/
def civilFromDays (z : Int) : Int × Nat × Nat :=
  let z' := z + 719468
  let era := Int.fdiv z' 146097
  let doe := (z' - era * 146097).toNat
  let yoe := (doe - doe / 1460 + doe / 36524 - doe / 146096) / 365
  let doy := doe - (365 * yoe + yoe / 4 - yoe / 100)
  let mp := (5 * doy + 2) / 153
  let d := doy - (153 * mp + 2) / 5 + 1
  let m := if mp < 10 then mp + 3 else mp - 9
  (era * 400 + yoe + (if m ≤ 2 then 1 else 0), m, d)

/-- Split a naive-datetime second count into (year, month, day, h, m, s). -/
def dtParts (t : Int) : Int × Nat × Nat × Nat × Nat × Nat :=
  let days := Int.fdiv t 86400
  let secs := (t - days * 86400).toNat
  let (y, mo, d) := civilFromDays days
  (y, mo, d, secs / 3600, secs % 3600 / 60, secs % 60)

/-- Zero-pad a number to two digits. -/
def pad2 (n : Nat) : String :=
  if n < 10 then "0" ++ toString n else toString n

/-- Zero-pad a year to four digits (all timestamps in scope are CE). -/
def pad4 (y : Int) : String :=
  let s := toString y
  if y < 1000 then String.mk (List.replicate (4 - s.length) '0') ++ s else s

/-- `datetime.strftime('%Y-%m-%d %H:%M:%S')` (used by the markdown
formatter and by `str(datetime)` in the CSV rows). -/
def dtStrftime (t : Int) : String :=
  let (y, mo, d, h, mi, s) := dtParts t
  pad4 y ++ "-" ++ pad2 mo ++ "-" ++ pad2 d ++ " " ++ pad2 h ++ ":" ++ pad2 mi ++ ":" ++ pad2 s

/-- `datetime.isoformat()` for whole-second datetimes (used by `to_dict`). -/
def dtIsoformat (t : Int) : String :=
  let (y, mo, d, h, mi, s) := dtParts t
  pad4 y ++ "-" ++ pad2 mo ++ "-" ++ pad2 d ++ "T" ++ pad2 h ++ ":" ++ pad2 mi ++ ":" ++ pad2 s

/-! ## Data model (`src/intercom_export/models/conversation.py`)

The dataclasses declare field types but Python does not enforce them, so
fields that are filled straight from the raw dict are kept as `PyVal`;
`created_at` is the naive-datetime second count produced by
`utcfromtimestamp(...) + timedelta(hours=2)`. -/

/-- The `Author` dataclass (conversation.py:9-15): fields `id`, `name`,
`type`, `email` and nothing else — in particular no `get` method. -/
structure Author where
  id : PyVal
  name : PyVal
  type : PyVal
  email : PyVal

/-- The `Message` dataclass (conversation.py:17-25). -/
structure Message where
  id : PyVal
  body : PyVal
  author : Author
  created_at : Int
  type : PyVal
  metadata : List (String × PyVal)

/-- The `Conversation` dataclass (conversation.py:47-59). -/
structure Conversation where
  id : PyVal
  created_at : Int
  updated_at : Int
  title : PyVal
  state : PyVal
  messages : List Message
  custom_attributes : PyVal
  tags : List PyVal
  source : PyVal
  metadata : List (String × PyVal)

/-- Python attribute access on an `Author` instance: the dataclass has
exactly the four fields above, so any other attribute (e.g. the `get` the
CSV formatter asks for) raises `AttributeError`. -/
def Author.attr (a : Author) (name : String) : Except PyErr PyVal :=
  match name with
  | "id" => .ok a.id
  | "name" => .ok a.name
  | "type" => .ok a.type
  | "email" => .ok a.email
  | _ => .error .attributeError

/-- `data['k']`: `KeyError` when absent. -/
def pyIndex (kvs : List (String × PyVal)) (k : String) : Except PyErr PyVal :=
  match pyLookup k kvs with
  | some v => .ok v
  | Option.none => .error (.keyError k)

/-- `datetime.utcfromtimestamp(v)`: requires a number (`TypeError`
otherwise; Python `bool` is an `int` subclass, so it converts too). -/
def pyTimestamp (v : PyVal) : Except PyErr Int :=
  match v with
  | .int n => .ok n
  | .bool b => .ok (if b then 1 else 0)
  | _ => .error .typeError

/-- `Message.from_api_data(data)` (conversation.py:27-45), over the entries
of the raw dict.  Required keys raise `KeyError` when missing; a non-dict
`author` raises `TypeError` (subscripting), in the evaluation order of the
constructor call. -/
def Message.from_api_data (data : List (String × PyVal)) : Except PyErr Message := do
  let idv ← pyIndex data "id"
  let body := pyGetD data "body" (.str "")
  let authorv ← pyIndex data "author"
  let author ← match authorv with
    | .dict akvs => do
      let aid ← pyIndex akvs "id"
      let aname ← pyIndex akvs "name"
      let atype ← pyIndex akvs "type"
      pure (Author.mk aid aname atype (pyGetD akvs "email" .none))
    | _ => .error .typeError
  let ts ← pyTimestamp (← pyIndex data "created_at")
  let ptype ← pyIndex data "part_type"
  pure
    { id := idv, body := body, author := author, created_at := ts + tzShift,
      type := ptype,
      metadata :=
        data.filter (fun kv =>
          kv.1 ∉ ["id", "body", "author", "created_at", "part_type"]) }

/-- `{**data['conversation_message'], 'part_type': 'comment'}`
(conversation.py:68-71): `TypeError` when the value is not a dict. -/
def mergedInitialMessage (cm : PyVal) : Except PyErr (List (String × PyVal)) :=
  match cm with
  | .dict kvs => .ok (pySetKey kvs "part_type" (.str "comment"))
  | _ => .error .typeError

/-- One step of the parts loop (conversation.py:76-82): a part contributes a
message exactly when it is a dict with a truthy `body` whose conversion
succeeds; conversion errors are caught and the part skipped. -/
def partToMsg (p : PyVal) : Option Message :=
  match p with
  | .dict pk =>
    if (pyGetD pk "body" .none).truthy then (Message.from_api_data pk).toOption
    else Option.none
  | _ => Option.none

/-- The claim's notion of a well-formed part: a mapping with a non-empty
body that converts without error. -/
def wellFormedPart (p : PyVal) : Bool :=
  match p with
  | .dict pk => (pyGetD pk "body" .none).truthy && (Message.from_api_data pk).toBool
  | _ => false

/-- Python iteration (`for x in v`): lists yield their items, strings their
characters, dicts their keys; `None`/ints/bools are not iterable. -/
def pyIter (v : PyVal) : Except PyErr (List PyVal) :=
  match v with
  | .list xs => .ok xs
  | .str s => .ok (s.data.map (fun c => .str (String.mk [c])))
  | .dict kvs => .ok (kvs.map (fun kv => .str kv.1))
  | _ => .error .typeError

/-- `data['conversation_parts'].get('conversation_parts', [])`
(conversation.py:75): `.get` on a non-dict raises `AttributeError`. -/
def rawParts (data : List (String × PyVal)) : Except PyErr (List PyVal) :=
  match pyLookup "conversation_parts" data with
  | Option.none => .ok []
  | some (.dict cpk) => pyIter (pyGetD cpk "conversation_parts" (.list []))
  | some _ => .error .attributeError

/-- The tags expression (conversation.py:94-100): a list is iterated
directly; anything else goes through `.get('tags', [])` (raising
`AttributeError` on a non-dict); each tag is `tag.get('name', tag)` for
dicts and itself otherwise. -/
def extractTags (data : List (String × PyVal)) : Except PyErr (List PyVal) := do
  let source ← match pyLookup "tags" data with
    | some (.list xs) => pure (PyVal.list xs)
    | some (.dict tk) => pure (pyGetD tk "tags" (.list []))
    | some _ => .error .attributeError
    | Option.none => pure (PyVal.list [])
  let items ← pyIter source
  pure (items.map (fun tag =>
    match tag with
    | .dict tk => pyGetD tk "name" tag
    | _ => tag))

/-- `messages.sort(key=lambda m: m.created_at)` (conversation.py:84):
Python's stable ascending sort. -/
def sortMessages (msgs : List Message) : List Message :=
  List.insertionSort (fun a b => a.created_at ≤ b.created_at) msgs

/-- The message-building phase of `Conversation.from_api_data`
(conversation.py:64-84): optional initial message (errors abort — it is
not inside the `try`), then the filtered parts, then the sort. -/
def buildMessages (data : List (String × PyVal)) : Except PyErr (List Message) := do
  let initial ← match pyLookup "conversation_message" data with
    | some cm => do
      let merged ← mergedInitialMessage cm
      let m ← Message.from_api_data merged
      pure [m]
    | Option.none => pure []
  let parts ← rawParts data
  pure (sortMessages (initial ++ parts.filterMap partToMsg))

/-- The top-level keys that `from_api_data` models explicitly; everything
else lands in `metadata` (conversation.py:102-109). -/
def conversationModeledKeys : List String :=
  ["id", "created_at", "updated_at", "title", "state", "conversation_parts",
    "custom_attributes", "tags", "source", "conversation_message"]

/-- `Conversation.from_api_data(data)` (conversation.py:61-110). -/
def Conversation.from_api_data (data : List (String × PyVal)) :
    Except PyErr Conversation := do
  let msgs ← buildMessages data
  let idv ← pyIndex data "id"
  let ca ← pyTimestamp (← pyIndex data "created_at")
  let ua ← pyTimestamp (← pyIndex data "updated_at")
  let tags ← extractTags data
  pure
    { id := idv, created_at := ca + tzShift, updated_at := ua + tzShift,
      title := pyGetD data "title" .none,
      state := pyGetD data "state" (.str "open"),
      messages := msgs,
      custom_attributes := pyGetD data "custom_attributes" (.dict []),
      tags := tags,
      source := pyGetD data "source" (.dict []),
      metadata := data.filter (fun kv => kv.1 ∉ conversationModeledKeys) }

/-- The per-message dict of `Conversation.to_dict` (conversation.py:120-135). -/
def Message.toDict (m : Message) : PyVal :=
  .dict
    [("id", m.id), ("body", m.body),
      ("author",
        .dict
          [("id", m.author.id), ("name", m.author.name),
            ("type", m.author.type), ("email", m.author.email)]),
      ("created_at", .str (dtIsoformat m.created_at)),
      ("type", m.type), ("metadata", .dict m.metadata)]

/-- `Conversation.to_dict` (conversation.py:112-140). -/
def Conversation.toDict (c : Conversation) : PyVal :=
  .dict
    [("id", c.id),
      ("created_at", .str (dtIsoformat c.created_at)),
      ("updated_at", .str (dtIsoformat c.updated_at)),
      ("title", c.title), ("state", c.state),
      ("messages", .list (c.messages.map Message.toDict)),
      ("custom_attributes", c.custom_attributes),
      ("tags", .list c.tags),
      ("source", c.source),
      ("metadata", .dict c.metadata)]


/-! ## `str()` and `repr()` of Python values (markdown rendering) -/

mutual

/-- Python `repr(...)` for the values in scope (strings quoted, containers
rendered recursively; string-escape corner cases are not exercised by the
data the claims touch). -/
def pyRepr : PyVal → String
  | .none => "None"
  | .bool b => if b then "True" else "False"
  | .int n => toString n
  | .str s => "'" ++ s ++ "'"
  | .list xs => "[" ++ pyReprJoin xs ++ "]"
  | .dict kvs => "\x7b" ++ pyReprJoinKvs kvs ++ "\x7d"

/-- `", ".join(repr(x) for x in xs)`. -/
def pyReprJoin : List PyVal → String
  | [] => ""
  | [x] => pyRepr x
  | x :: xs => pyRepr x ++ ", " ++ pyReprJoin xs

/-- `", ".join(repr(k) + ": " + repr(v) ...)`. -/
def pyReprJoinKvs : List (String × PyVal) → String
  | [] => ""
  | [(k, v)] => "'" ++ k ++ "': " ++ pyRepr v
  | (k, v) :: kvs => "'" ++ k ++ "': " ++ pyRepr v ++ ", " ++ pyReprJoinKvs kvs

end

/-- Python `str(...)`: strings unquoted, containers via `repr`. -/
def pyStr : PyVal → String
  | .str s => s
  | v => pyRepr v

/-! ## Markdown formatter (`src/intercom_export/formatters/markdown.py`) -/

/-- `v is None`. -/
def PyVal.isNone : PyVal → Bool
  | .none => true
  | _ => false

/-- Python `str.rstrip()`: drop trailing whitespace. -/
def pyRStrip (s : String) : String :=
  String.mk (s.data.reverse.dropWhile (fun c =>
    c = ' ' ∨ c = '\t' ∨ c = '\n' ∨ c = '\r' ∨ c = '\x0b' ∨ c = '\x0c')).reverse

/-- `', '.join(xs)`: every element must be a `str`, else `TypeError`. -/
def pyJoinStrs (sep : String) : List PyVal → Except PyErr String
  | [] => .ok ""
  | [.str s] => .ok s
  | .str s :: rest => do pure (s ++ sep ++ (← pyJoinStrs sep rest))
  | _ => .error .typeError

/-- Python string `<=`: lexicographic on code points. -/
def charListLe : List Char → List Char → Bool
  | [], _ => true
  | _ :: _, [] => false
  | a :: as, b :: bs =>
    if a.toNat < b.toNat then true
    else if b.toNat < a.toNat then false
    else charListLe as bs

/-- Python string `<=` on `String`. -/
def pyStrLe (a b : String) : Bool :=
  charListLe a.data b.data

/-- `sorted(metadata.items())` (markdown.py:27): Python sorts the key/value
tuples, which for the unique string keys of a dict is a stable sort by
key. -/
def mdSortItems (kvs : List (String × PyVal)) : List (String × PyVal) :=
  List.insertionSort (fun a b => pyStrLe a.1 b.1) kvs

/-- `MarkdownFormatter._format_metadata` (markdown.py:24-42): one bullet per
non-`None` value; nested dicts as sub-bullets (skipping `None` sub-values),
lists comma-joined when non-empty, everything else via `str()`. -/
def mdFormatMetadata (kvs : List (String × PyVal)) : List String :=
  (mdSortItems kvs).flatMap (fun kv =>
    match kv.2 with
    | .none => []
    | .dict sub =>
      ("- **" ++ kv.1 ++ ":**") ::
        sub.filterMap (fun skv =>
          match skv.2 with
          | .none => Option.none
          | sv => some ("  - " ++ skv.1 ++ ": " ++ pyStr sv))
    | .list xs =>
      if xs.isEmpty then []
      else ["- **" ++ kv.1 ++ ":** " ++
        String.intercalate ", " (xs.map pyStr)]
    | v => ["- **" ++ kv.1 ++ ":** " ++ pyStr v])

/-- The `context` dict of markdown.py:62-66:
`{'State': ..., 'Tags': ..., **conversation.custom_attributes}`; splatting a
non-dict raises `TypeError`; the tags are comma-joined only when the list is
truthy (`', '.join` demands strings). -/
def mdContext (c : Conversation) : Except PyErr (List (String × PyVal)) := do
  let tagsVal ← if c.tags.isEmpty then pure PyVal.none
    else do pure (PyVal.str (← pyJoinStrs ", " c.tags))
  let base := [("State", c.state), ("Tags", tagsVal)]
  match c.custom_attributes with
  | .dict cas => .ok (cas.foldl (fun acc kv => pySetKey acc kv.1 kv.2) base)
  | _ => .error .typeError

/-- The per-message lines of markdown.py:112-122: a bold timestamp/author
header, then the body when truthy (`.rstrip()` demands a `str`:
`AttributeError` on any other truthy body). -/
def mdMessageLines (m : Message) : Except PyErr (List String) := do
  let header := "**" ++ dtStrftime m.created_at ++ " - " ++ pyStr m.author.name ++
    " (" ++ pyStr m.author.type ++ "):**"
  if m.body.truthy then
    match m.body with
    | .str s => .ok [header, pyRStrip s ++ "\n"]
    | _ => .error .attributeError
  else
    .ok [header]

/-- Sequence the message renderings in order. -/
def mdAllMessageLines : List Message → Except PyErr (List String)
  | [] => .ok []
  | m :: ms => do pure ((← mdMessageLines m) ++ (← mdAllMessageLines ms))

/-- `MarkdownFormatter.format_conversation` (markdown.py:44-127).  The
"Device Information" section (markdown.py:72-106) is guarded by
`hasattr(conversation, "browser")` etc.; the `Conversation` dataclass
defines none of those attributes, so the section never renders and the
embedding omits it. -/
def markdownFormatConversation (c : Conversation) : Except PyErr String := do
  let head := ["## Conversation " ++ pyStr c.id ++ "\n",
    "**Created:** " ++ dtStrftime c.created_at ++ "\n"]
  let ctx ← mdContext c
  let ctxLines :=
    if ctx.any (fun kv => !kv.2.isNone) then
      ("### Context\n" :: mdFormatMetadata ctx) ++ [""]
    else []
  let msgLines ←
    if c.messages.isEmpty then pure []
    else do pure ("### Conversation\n" :: (← mdAllMessageLines c.messages))
  pure (String.intercalate "\n" (head ++ ctxLines ++ msgLines ++ ["---", ""]))

/-! ## CSV formatter (`src/intercom_export/formatters/csv_formatter.py`)

Only the flattened mode is embedded (the summary mode is outside the
claims; it reads `conversation.subject`, `conversation.assignee` and
`conversation.contact`, none of which exist on the `Conversation`
dataclass). -/

/-- `self.columns` in flattened mode (csv_formatter.py:26-30). -/
def csvFlattenedColumns : List String :=
  ["conversation_id", "created_at", "updated_at", "state", "message_id",
    "message_type", "message_author", "message_text", "message_created_at"]

/-- `CSVFormatter.format_header` (csv_formatter.py:38-45) with headers on
and the default delimiter/quoting (the column names need no quoting). -/
def csvFormatHeader : String :=
  String.intercalate "," csvFlattenedColumns

/-- The flattened per-message loop (csv_formatter.py:51-65).  Each row
evaluates its cells left to right; the seventh cell is
`message.author.get('name', 'Unknown')`, an attribute access on the
`Author` dataclass, which defines no `get` — so the first message raises
`AttributeError` before any row is written. -/
def csvFlattenedRows (_c : Conversation) : List Message → Except PyErr (List String)
  | [] => .ok []
  | m :: _ =>
    match m.author.attr "get" with
    | .error e => .error e
    | .ok _ =>
      -- dead branch: `Author.attr a "get"` is an `AttributeError` by the
      -- dataclass's field list, mirroring the Python class
      .error .attributeError

/-- `CSVFormatter.format_conversation` in flattened mode
(csv_formatter.py:47-65, 83): rows accumulated into a `StringIO`, then
`getvalue().strip()`. -/
def csvFormatConversationFlattened (c : Conversation) : Except PyErr String := do
  let rows ← csvFlattenedRows c c.messages
  pure (pyRStrip (String.intercalate "" rows))

/-! ## JSON serialization (`json.dumps(..., ensure_ascii=False)`) -/

/-- Hex digit. -/
def hexDigit (n : Nat) : Char :=
  if n < 10 then Char.ofNat ('0'.toNat + n) else Char.ofNat ('a'.toNat + n - 10)

/-- JSON escaping of one character (`ensure_ascii=False`: only the quote,
the backslash and control characters are escaped). -/
def jsonEscapeChar (c : Char) : List Char :=
  if c = '"' then ['\\', '"']
  else if c = '\\' then ['\\', '\\']
  else if c = '\n' then ['\\', 'n']
  else if c = '\r' then ['\\', 'r']
  else if c = '\t' then ['\\', 't']
  else if c = '\x08' then ['\\', 'b']
  else if c = '\x0c' then ['\\', 'f']
  else if c.toNat < 0x20 then
    ['\\', 'u', '0', '0', hexDigit (c.toNat / 16), hexDigit (c.toNat % 16)]
  else [c]

/-- A JSON string literal. -/
def jsonQuote (s : String) : String :=
  String.mk ('"' :: s.data.flatMap jsonEscapeChar ++ ['"'])

/-- `indent * n` spaces. -/
def jsonIndentStr (indent : Option Nat) (depth : Nat) : String :=
  match indent with
  | some i => String.mk (List.replicate (i * depth) ' ')
  | Option.none => ""

mutual

/-- `json.dumps(v, indent=indent, ensure_ascii=False)` at nesting `depth`.
With an indent, containers put every item on its own indented line and
separate with `",\n"`; with `indent=None` Python uses the default
separators `", "` and `": "`. -/
def jsonDumps (indent : Option Nat) (depth : Nat) : PyVal → String
  | .none => "null"
  | .bool b => if b then "true" else "false"
  | .int n => toString n
  | .str s => jsonQuote s
  | .list [] => "[]"
  | .list xs =>
    match indent with
    | some _ =>
      "[\n" ++ jsonIndentStr indent (depth + 1) ++
        jsonDumpsList indent (depth + 1) (",\n" ++ jsonIndentStr indent (depth + 1)) xs ++
        "\n" ++ jsonIndentStr indent depth ++ "]"
    | Option.none => "[" ++ jsonDumpsList indent depth ", " xs ++ "]"
  | .dict [] => "\x7b\x7d"
  | .dict kvs =>
    match indent with
    | some _ =>
      "\x7b\n" ++ jsonIndentStr indent (depth + 1) ++
        jsonDumpsKvs indent (depth + 1) (",\n" ++ jsonIndentStr indent (depth + 1)) kvs ++
        "\n" ++ jsonIndentStr indent depth ++ "\x7d"
    | Option.none => "\x7b" ++ jsonDumpsKvs indent depth ", " kvs ++ "\x7d"

/-- Items joined by `sep`. -/
def jsonDumpsList (indent : Option Nat) (depth : Nat) (sep : String) : List PyVal → String
  | [] => ""
  | [x] => jsonDumps indent depth x
  | x :: xs => jsonDumps indent depth x ++ sep ++ jsonDumpsList indent depth sep xs

/-- Key/value pairs joined by `sep`, with the `": "` key separator. -/
def jsonDumpsKvs (indent : Option Nat) (depth : Nat) (sep : String) :
    List (String × PyVal) → String
  | [] => ""
  | [(k, v)] => jsonQuote k ++ ": " ++ jsonDumps indent depth v
  | (k, v) :: kvs =>
    jsonQuote k ++ ": " ++ jsonDumps indent depth v ++ sep ++
      jsonDumpsKvs indent depth sep kvs

end

/-! ## A JSON reader (`json.loads`), used to state validity of emitted text -/

/-- JSON insignificant whitespace. -/
def jsonWs (c : Char) : Bool :=
  c = ' ' || c = '\t' || c = '\n' || c = '\r'

/-- Drop leading whitespace. -/
def skipWs (cs : List Char) : List Char :=
  cs.dropWhile jsonWs

/-- Decode one string-escape character (the `\uXXXX` form is not needed for
the texts in scope). -/
def jsonUnescape (c : Char) : Option Char :=
  if c = '"' then some '"'
  else if c = '\\' then some '\\'
  else if c = '/' then some '/'
  else if c = 'n' then some '\n'
  else if c = 'r' then some '\r'
  else if c = 't' then some '\t'
  else if c = 'b' then some '\x08'
  else if c = 'f' then some '\x0c'
  else Option.none

/-- Read a string body up to the closing quote. -/
def jsonReadString : Nat → List Char → Option (List Char × List Char)
  | 0, _ => Option.none
  | _, '"' :: rest => some ([], rest)
  | fuel + 1, '\\' :: e :: rest => do
    let c ← jsonUnescape e
    let (s, r) ← jsonReadString fuel rest
    pure (c :: s, r)
  | fuel + 1, c :: rest =>
    if c.toNat < 0x20 then Option.none
    else do
      let (s, r) ← jsonReadString fuel rest
      pure (c :: s, r)
  | _, [] => Option.none

/-- Read a digit run as a number. -/
def jsonReadDigits (cs : List Char) (acc : Nat) : Option (Nat × List Char) :=
  match cs with
  | c :: rest =>
    if c.isDigit then
      match jsonReadDigits rest (acc * 10 + (c.toNat - '0'.toNat)) with
      | some r => some r
      | Option.none => some (acc * 10 + (c.toNat - '0'.toNat), rest)
    else Option.none
  | [] => Option.none

mutual

/-- Read one JSON value (integers only among numbers — all the texts in
scope serialize ints). -/
def jsonReadVal : Nat → List Char → Option (PyVal × List Char)
  | 0, _ => Option.none
  | fuel + 1, cs =>
    match skipWs cs with
    | 'n' :: 'u' :: 'l' :: 'l' :: rest => some (.none, rest)
    | 't' :: 'r' :: 'u' :: 'e' :: rest => some (.bool true, rest)
    | 'f' :: 'a' :: 'l' :: 's' :: 'e' :: rest => some (.bool false, rest)
    | '"' :: rest => do
      let (s, r) ← jsonReadString (fuel + 1) rest
      pure (.str (String.mk s), r)
    | '[' :: rest =>
      (match skipWs rest with
      | ']' :: r => some (.list [], r)
      | _ => do
        let (xs, r) ← jsonReadElems fuel rest
        pure (.list xs, r))
    | '\x7b' :: rest =>
      (match skipWs rest with
      | '\x7d' :: r => some (.dict [], r)
      | _ => do
        let (kvs, r) ← jsonReadMembers fuel rest
        pure (.dict kvs, r))
    | '-' :: rest => do
      let (n, r) ← jsonReadDigits rest 0
      pure (.int (-(n : Int)), r)
    | c :: rest =>
      if c.isDigit then do
        let (n, r) ← jsonReadDigits (c :: rest) 0
        pure (.int (n : Int), r)
      else Option.none
    | [] => Option.none

/-- Comma-separated values up to `]`. -/
def jsonReadElems : Nat → List Char → Option (List PyVal × List Char)
  | 0, _ => Option.none
  | fuel + 1, cs => do
    let (v, r) ← jsonReadVal fuel cs
    match skipWs r with
    | ',' :: r' => do
      let (vs, r'') ← jsonReadElems fuel r'
      pure (v :: vs, r'')
    | ']' :: r' => pure ([v], r')
    | _ => Option.none

/-- Comma-separated `"key": value` members up to the closing brace. -/
def jsonReadMembers : Nat → List Char → Option (List (String × PyVal) × List Char)
  | 0, _ => Option.none
  | fuel + 1, cs =>
    match skipWs cs with
    | '"' :: rest => do
      let (k, r) ← jsonReadString (fuel + 1) rest
      match skipWs r with
      | ':' :: r' => do
        let (v, r'') ← jsonReadVal fuel r'
        match skipWs r'' with
        | ',' :: r3 => do
          let (kvs, r4) ← jsonReadMembers fuel r3
          pure ((String.mk k, v) :: kvs, r4)
        | '\x7d' :: r3 => pure ([(String.mk k, v)], r3)
        | _ => Option.none
      | _ => Option.none
    | _ => Option.none

end

/-- `json.loads(s)`: a full parse of the text, `Option.none` where Python
raises `JSONDecodeError`. -/
def jsonLoads (s : String) : Option PyVal :=
  match jsonReadVal (s.length + 2) s.data with
  | some (v, rest) => if (skipWs rest).isEmpty then some v else Option.none
  | Option.none => Option.none

/-! ## JSON formatter (`src/intercom_export/formatters/json_formatter.py`) -/

/-- `JSONFormatter.format_header` (json_formatter.py:24-26). -/
def jsonFormatHeader : String := "["

/-- `JSONFormatter.format_footer` (json_formatter.py:28-30). -/
def jsonFormatFooter : String := "\n]"

/-- `JSONFormatter.format_conversation` (json_formatter.py:32-51) when a
file is attached: the conversation's `to_dict` is dumped, and `",\n"` is
prepended exactly when `self.file.tell() > len(self.format_header())`. -/
def jsonFormatConversationAt (tell : Nat) (indent : Option Nat) (c : Conversation) : String :=
  let js := jsonDumps indent 0 c.toDict
  if tell > jsonFormatHeader.length then ",\n" ++ js else js

/-- The file-sink path of `JSONFormatter.format_conversations`
(json_formatter.py:72-73 deferring to `BaseFormatter.format_conversations`,
base.py:66-82): header, each conversation's rendering and footer are
collected into a list, joined with `"\n"`, and written to the file in one
single `self.file.write(result)` at the end.  Because nothing is written
until then, `self.file.tell()` during every `format_conversation` call
still returns the file position from before the call — `initPos`, which is
`0` for a freshly opened file. -/
def jsonStreamedOutput (initPos : Nat) (indent : Option Nat)
    (convs : List Conversation) : String :=
  String.intercalate "\n"
    (jsonFormatHeader :: convs.map (jsonFormatConversationAt initPos indent) ++
      [jsonFormatFooter])

/-- The string path of `JSONFormatter.format_conversations`
(json_formatter.py:64-70): `json.dumps([conv.to_dict() ...], indent=...)`. -/
def jsonStringOutput (indent : Option Nat) (convs : List Conversation) : String :=
  jsonDumps indent 0 (.list (convs.map Conversation.toDict))

/-- Field access on a parsed JSON object. -/
def pyDictGet (v : PyVal) (k : String) : Option PyVal :=
  match v with
  | .dict kvs => pyLookup k kvs
  | _ => Option.none

/-- Decidable equality of `Except` results (used to evaluate the embedding
at concrete inputs). -/
instance {e a : Type} [DecidableEq e] [DecidableEq a] : DecidableEq (Except e a) := fun
  | .ok x, .ok y =>
    if h : x = y then .isTrue (by rw [h]) else .isFalse (by simp [h])
  | .error x, .error y =>
    if h : x = y then .isTrue (by rw [h]) else .isFalse (by simp [h])
  | .ok _, .error _ => .isFalse (by simp)
  | .error _, .ok _ => .isFalse (by simp)

/-! ## Concrete scenarios used by the claim theorems -/

/-- A server that rate-limits the first request (no `Retry-After`) and then
answers every request with one record whose id is the first id of the
requested batch — so record ids always come from the requested batch. -/
def rlOnceOracle : Oracle := fun B k =>
  if k = 0 then .err (.rateLimit Option.none)
  else .ok (.mk Option.none ((B.take 1).map (fun i => .mk (some i) [])))

/-- A server that always answers success with zero conversations. -/
def emptyOkOracle : Oracle := fun _ _ => .ok (.mk Option.none [])

/-- A server that rate-limits the first request (`Retry-After: 5`) and then
returns the record for conversation 7. -/
def c5FallbackOracle : Oracle := fun _ k =>
  if k = 0 then .err (.rateLimit (some 5))
  else .ok (.mk Option.none [.mk (some (.num 7)) []])

/-- The raw record of the spec's concrete timestamp scenario:
`created_at = 1672567200`. -/
def c2Raw : List (String × PyVal) :=
  [("id", .str "100"), ("created_at", .int 1672567200),
    ("updated_at", .int 1672567200)]

/-- Normalize the record and render it to markdown. -/
def c2Output : Except PyErr String :=
  (Conversation.from_api_data c2Raw).bind markdownFormatConversation

/-- The markdown the code produces for `c2Raw`. -/
def c2Text : String :=
  "## Conversation 100\n\n**Created:** 2023-01-01 12:00:00\n\n### Context\n\n- **State:** open\n\n---\n"

/-- A canonical author (as the model layer would construct it). -/
def sampleAuthor : Author :=
  { id := .str "u1", name := .str "John Doe", type := .str "user", email := .none }

/-- A canonical message for the CSV scenario. -/
def c3Msg (i : String) (t : Int) : Message :=
  { id := .str i, body := .str ("body " ++ i), author := sampleAuthor,
    created_at := t, type := .str "comment", metadata := [] }

/-- A canonical conversation with exactly three messages. -/
def c3Conv : Conversation :=
  { id := .str "123456", created_at := 1672574400, updated_at := 1672574400,
    title := .none, state := .str "open",
    messages := [c3Msg "m1" 1672574400, c3Msg "m2" 1672574460, c3Msg "m3" 1672574520],
    custom_attributes := .dict [], tags := [], source := .dict [], metadata := [] }

/-- A small canonical conversation for the JSON streaming scenario. -/
def jc1 : Conversation :=
  { id := .str "1", created_at := 1672574400, updated_at := 1672574400,
    title := .none, state := .str "open", messages := [],
    custom_attributes := .dict [], tags := [], source := .dict [], metadata := [] }

/-- A second conversation for the JSON streaming scenario. -/
def jc2 : Conversation :=
  { jc1 with id := .str "2" }

/-- A raw author dict. -/
def c7AuthorDict (n : String) : PyVal :=
  .dict [("id", .str "u1"), ("name", .str n), ("type", .str "user")]

/-- The raw `conversation_parts` list of the C7 scenario: two well-formed
parts, one non-mapping, one with an empty body, one whose conversion fails
(no author, no `created_at`, no `part_type`). -/
def c7PartsList : List PyVal :=
  [.dict [("id", .str "p1"), ("body", .str "hello"), ("author", c7AuthorDict "A"),
      ("created_at", .int 1672567300), ("part_type", .str "comment")],
    .str "noise",
    .dict [("id", .str "p2"), ("body", .str "")],
    .dict [("id", .str "p3"), ("body", .str "x"), ("created_at", .int 1672567100),
      ("author", c7AuthorDict "C"), ("part_type", .str "note")],
    .dict [("id", .str "p4"), ("body", .str "bad")]]

/-- The raw `conversation_message` of the C7 scenario. -/
def c7Cm : PyVal :=
  .dict [("id", .str "m0"), ("body", .str "first"), ("author", c7AuthorDict "B"),
    ("created_at", .int 1672567250)]

/-- The raw conversation record of the C7 scenario. -/
def c7Raw : List (String × PyVal) :=
  [("id", .str "7"), ("created_at", .int 1672567200), ("updated_at", .int 1672567200),
    ("conversation_message", c7Cm),
    ("conversation_parts", .dict [("conversation_parts", .list c7PartsList)])]

/-! # Theorems settling the claims -/

set_option maxRecDepth 8000

/-- C2, counterexample.  The raw epoch `1672567200` is 2023-01-01T10:00:00
UTC, so after the fixed +2h shift normalization yields the local timestamp
2023-01-01T12:00:00 — not the 14:00:00 the claim states — and the markdown
rendered from the normalized conversation does not contain the substring
`**Created:** 2023-01-01 14:00:00`. -/
theorem c2_counterexample :
    (Conversation.from_api_data c2Raw).map (fun c => dtIsoformat c.created_at) =
      .ok "2023-01-01T12:00:00" ∧
    c2Output = .ok c2Text ∧
    ¬ ("**Created:** 2023-01-01 14:00:00".data <:+: c2Text.data) :=
  ⟨by decide, by decide, by decide⟩

/-- C2, amended.  A raw record with `created_at = 1672567200` normalizes
(after the fixed +2h offset) to the local timestamp 2023-01-01T12:00:00,
and formatting that conversation to markdown yields output containing the
literal substring `**Created:** 2023-01-01 12:00:00`. -/
theorem c2_created_line :
    (Conversation.from_api_data c2Raw).map (fun c => dtIsoformat c.created_at) =
      .ok "2023-01-01T12:00:00" ∧
    c2Output = .ok c2Text ∧
    ("**Created:** 2023-01-01 12:00:00".data <:+: c2Text.data) :=
  ⟨by decide, by decide, by decide⟩

/-- C3.  The CSV formatter in flattened mode does **not** emit rows for a
canonical conversation with three messages: the first row evaluates
`message.author.get('name', 'Unknown')` (csv_formatter.py:61) and the
`Author` dataclass has no `get` attribute, so the call raises
`AttributeError` instead of producing output. -/
theorem c3_csv_flattened_raises :
    c3Conv.messages.length = 3 ∧
    csvFormatConversationFlattened c3Conv = .error .attributeError :=
  ⟨rfl, rfl⟩

/-- C10.  `get_conversation` catches every `IntercomAPIError` subclass
raised by the initial GET — authentication and rate-limit errors included —
and proceeds to the fallback search request with the error swallowed. -/
theorem c10_get_swallows_every_api_error (e : ApiErr) (postResp : HResp) (cid : Ident) :
    get_conversation (.err e) postResp cid = getConversationFallback postResp cid :=
  rfl

/-- C5, counterexample.  The fallback of `get_conversation` does **not**
honor `fetch_batch`'s retry policy: with the very same response sequence
(first response rate-limited with `Retry-After: 5`, second successful),
`get_conversation` propagates the rate-limit error immediately while the
`fetch_batch` retry loop would have retried and succeeded; and an empty
fallback result raises the generic `IntercomAPIError` (`.base`), there
being no NotFound class. -/
theorem c5_counterexample :
    get_conversation (.err .auth) (.err (.rateLimit (some 5))) (.num 7) =
      .error (.rateLimit (some 5)) ∧
    (batchAttempts c5FallbackOracle 3 [.num 7] 0 0).result =
      .ok [.mk (some (.num 7)) []] ∧
    getConversationFallback (.ok (.mk Option.none [])) (.num 7) =
      .error (.base (notFoundFallbackMsg (.num 7))) :=
  ⟨rfl, rfl, rfl⟩

/-- C5, amended.  `get_conversation` returns the direct GET result exactly
when its id is truthy and string-equal to the requested id; in every other
case it issues one single fallback search request with no retries — any
error from it, rate limits included, propagates immediately — returning
the first record when one exists and otherwise raising the generic
`IntercomAPIError` whose message names the id. -/
theorem c5_direct_then_single_fallback (cid : Ident) :
    (∀ body postResp, idMatches body cid = true →
      get_conversation (.ok body) postResp cid = .ok body) ∧
    (∀ body postResp, idMatches body cid = false →
      get_conversation (.ok body) postResp cid = getConversationFallback postResp cid) ∧
    (∀ e postResp,
      get_conversation (.err e) postResp cid = getConversationFallback postResp cid) ∧
    (∀ e, getConversationFallback (.err e) cid = .error e) ∧
    (∀ rid c rest,
      getConversationFallback (.ok (.mk rid (c :: rest))) cid = .ok c) ∧
    (∀ rid,
      getConversationFallback (.ok (.mk rid [])) cid =
        .error (.base (notFoundFallbackMsg cid))) := by
  refine ⟨?_, ?_, ?_, ?_, ?_, ?_⟩
  · intro body postResp h
    simp [get_conversation, h]
  · intro body postResp h
    simp [get_conversation, h]
  · intro e postResp
    rfl
  · intro e
    rfl
  · intro rid c rest
    rfl
  · intro rid
    rfl

/-- C5, witness: the amended behaviour at concrete inputs. -/
theorem c5_witness :
    get_conversation (.ok (.mk (some (.num 7)) [])) (.err .auth) (.num 7) =
      .ok (.mk (some (.num 7)) []) ∧
    getConversationFallback (.ok (.mk Option.none [])) (.num 7) =
      .error (.base (notFoundFallbackMsg (.num 7))) :=
  ⟨(c5_direct_then_single_fallback (.num 7)).1 _ _ rfl,
    (c5_direct_then_single_fallback (.num 7)).2.2.2.2.2 _⟩

/-- C6, counterexample.  When a single-id batch receives a successful
response with zero records, the error raised is `ApiErr.base` — the
embedding of the **generic** `IntercomAPIError` base class (client.py:137
constructs `IntercomAPIError(...)` directly; the repository defines no
distinct NotFound class) — contradicting the claim that a distinct
NotFound-class error is raised. -/
theorem c6_counterexample :
    (get_conversations emptyOkOracle [.num 42] 1).result =
      .error (.base (notFoundMsg (.num 42))) :=
  rfl

/-- C6, amended.  For every single-id batch whose successful response
contains zero records, the client raises the generic `IntercomAPIError`
(base class) with message `Conversation {id} not found`, rather than
silently continuing; no distinct NotFound error class exists in the code. -/
theorem c6_single_empty_raises_base (oracle : Oracle) (b : Ident) (body : Rec)
    (k attempt fuel : Nat) (hresp : oracle [b] k = .ok body)
    (hempty : body.convs = []) :
    batchAttempts oracle (fuel + 1) [b] attempt k =
      ⟨.error (.base (notFoundMsg b)), [[b]], [], k + 1⟩ := by
  cases body with
  | mk rid convs =>
    have hc : convs = [] := hempty
    subst hc
    rw [batchAttempts.eq_2, hresp]
    rfl

/-- C6, witness: the amended behaviour at a concrete input. -/
theorem c6_witness :
    batchAttempts emptyOkOracle 3 [.num 42] 0 0 =
      ⟨.error (.base (notFoundMsg (.num 42))), [[.num 42]], [], 1⟩ :=
  c6_single_empty_raises_base emptyOkOracle (.num 42) (.mk Option.none []) 0 0 2 rfl rfl

/-- C1, counterexample.  A batch of three ids that is rate-limited retries
with `batch[:3//2]`, i.e. a single id — not the `ceil(3/2) = 2` ids the
claim states. -/
theorem c1_counterexample :
    (get_conversations rlOnceOracle [.num 1, .num 2, .num 3] 3).requests =
      [[.num 1, .num 2, .num 3], [.num 1]] ∧
    (3 + 1) / 2 = 2 ∧
    [Ident.num 1].length ≠ 2 :=
  ⟨rfl, rfl, by decide⟩

/-- C1, amended.  On a rate-limited batch: with attempts remaining the
client sleeps `retry_after or 2**attempt` seconds (the server value only
when present and nonzero) and retries with `batch[:len(batch)//2]` — the
floor half — when the batch has more than one id; on the last of the 3
attempts the rate-limit error propagates; and three consecutive
rate-limit responses exhaust the attempts and propagate the final error. -/
theorem c1_rate_limit_retry (oracle : Oracle) (batch : List Ident) (k attempt : Nat)
    (ra : Option Int) (hrl : oracle batch k = .err (.rateLimit ra)) :
    (∀ f, batchAttempts oracle (f + 2) batch attempt k =
      ⟨(batchAttempts oracle (f + 1) (halvedBatch batch) (attempt + 1) (k + 1)).result,
        batch :: (batchAttempts oracle (f + 1) (halvedBatch batch) (attempt + 1) (k + 1)).requests,
        retryWait ra attempt ::
          (batchAttempts oracle (f + 1) (halvedBatch batch) (attempt + 1) (k + 1)).waits,
        (batchAttempts oracle (f + 1) (halvedBatch batch) (attempt + 1) (k + 1)).next⟩) ∧
    (batchAttempts oracle 1 batch attempt k =
      ⟨.error (.rateLimit ra), [batch], [], k + 1⟩) ∧
    (1 < batch.length → halvedBatch batch = batch.take (batch.length / 2)) ∧
    (∀ ra' ra'',
      oracle (halvedBatch batch) (k + 1) = .err (.rateLimit ra') →
      oracle (halvedBatch (halvedBatch batch)) (k + 2) = .err (.rateLimit ra'') →
      (batchAttempts oracle 3 batch 0 k).result = .error (.rateLimit ra'')) := by
  have hstep : ∀ (B : List Ident) (a k' f : Nat) (ra0 : Option Int),
      oracle B k' = .err (.rateLimit ra0) →
      batchAttempts oracle (f + 2) B a k' =
        ⟨(batchAttempts oracle (f + 1) (halvedBatch B) (a + 1) (k' + 1)).result,
          B :: (batchAttempts oracle (f + 1) (halvedBatch B) (a + 1) (k' + 1)).requests,
          retryWait ra0 a ::
            (batchAttempts oracle (f + 1) (halvedBatch B) (a + 1) (k' + 1)).waits,
          (batchAttempts oracle (f + 1) (halvedBatch B) (a + 1) (k' + 1)).next⟩ := by
    intro B a k' f ra0 h
    rw [batchAttempts.eq_2, h]
  have hlast : ∀ (B : List Ident) (a k' : Nat) (ra0 : Option Int),
      oracle B k' = .err (.rateLimit ra0) →
      batchAttempts oracle 1 B a k' = ⟨.error (.rateLimit ra0), [B], [], k' + 1⟩ := by
    intro B a k' ra0 h
    rw [batchAttempts.eq_2, h]
  refine ⟨fun f => hstep batch attempt k f ra hrl, hlast batch attempt k ra hrl, ?_, ?_⟩
  · intro h
    simp [halvedBatch, h]
  · intro ra' ra'' h1 h2
    show (batchAttempts oracle (1 + 2) batch 0 k).result = _
    rw [hstep batch 0 k 1 ra hrl]
    show (batchAttempts oracle (0 + 2) (halvedBatch batch) 1 (k + 1)).result = _
    rw [hstep (halvedBatch batch) 1 (k + 1) 0 ra' h1]
    show (batchAttempts oracle 1 (halvedBatch (halvedBatch batch)) 2 (k + 2)).result = _
    rw [hlast (halvedBatch (halvedBatch batch)) 2 (k + 2) ra'' h2]

/-- C1, witness: the amended retry behaviour at concrete inputs. -/
theorem c1_witness :
    (batchAttempts rlOnceOracle 3 [.num 1, .num 2, .num 3] 0 0 =
      ⟨(batchAttempts rlOnceOracle 2 (halvedBatch [.num 1, .num 2, .num 3]) 1 1).result,
        [.num 1, .num 2, .num 3] ::
          (batchAttempts rlOnceOracle 2 (halvedBatch [.num 1, .num 2, .num 3]) 1 1).requests,
        retryWait Option.none 0 ::
          (batchAttempts rlOnceOracle 2 (halvedBatch [.num 1, .num 2, .num 3]) 1 1).waits,
        (batchAttempts rlOnceOracle 2 (halvedBatch [.num 1, .num 2, .num 3]) 1 1).next⟩) ∧
    batchAttempts rlOnceOracle 1 [.num 1, .num 2, .num 3] 0 0 =
      ⟨.error (.rateLimit Option.none), [[.num 1, .num 2, .num 3]], [], 1⟩ :=
  ⟨(c1_rate_limit_retry rlOnceOracle [.num 1, .num 2, .num 3] 0 0 Option.none rfl).1 1,
    (c1_rate_limit_retry rlOnceOracle [.num 1, .num 2, .num 3] 0 0 Option.none rfl).2.1⟩

/-- C8.  Round-trip preservation: the canonical `Conversation`'s `id`,
`messages[].body`, `tags` and `custom_attributes` are stored verbatim in
the JSON document emitted by the formatter (`to_dict`, which
`JSONFormatter` serializes with `json.dumps`), so reading those fields
back from the parsed document yields exactly the source values.
(`json.dumps`/`json.loads` is the Python standard library, outside this
repository; the serialize-then-parse pair is modelled as the identity on
the JSON value, so the statement is over the document `to_dict` builds —
see also the concrete parse of `jsonStringOutput` in the C4 theorem.) -/
theorem c8_to_dict_preserves_fields (c : Conversation) :
    pyDictGet c.toDict "id" = some c.id ∧
    pyDictGet c.toDict "messages" = some (.list (c.messages.map Message.toDict)) ∧
    c.messages.map (fun m => pyDictGet (Message.toDict m) "body") =
      c.messages.map (fun m => some m.body) ∧
    pyDictGet c.toDict "tags" = some (.list c.tags) ∧
    pyDictGet c.toDict "custom_attributes" = some c.custom_attributes :=
  ⟨rfl, rfl, rfl, rfl, rfl⟩

/-- C4.  The incremental (file-sink) write path of the JSON formatter does
**not** emit the comma separator: `BaseFormatter.format_conversations`
joins header, bodies and footer and writes them once at the end, so
`self.file.tell()` is still the initial position (0 for a fresh file)
during every `format_conversation` call, the `tell() > len(header)` test
is always false, and the streamed document for two conversations is not
valid JSON (`json.loads` rejects it) — the repo's own test
`test_json_formatter_multiple_conversations_file` parses this very output
and would fail.  The string path, and the separator branch that would fire
for `tell() > 1`, are shown for contrast. -/
theorem c4_streamed_json_missing_separator :
    jsonLoads (jsonStreamedOutput 0 (some 2) [jc1, jc2]) = Option.none ∧
    jsonLoads (jsonStringOutput (some 2) [jc1, jc2]) =
      some (.list [jc1.toDict, jc2.toDict]) ∧
    jsonFormatConversationAt 2 (some 2) jc1 = ",\n" ++ jsonDumps (some 2) 0 jc1.toDict :=
  ⟨by rfl, by rfl, by rfl⟩

/-- `filterMap` keeps exactly the elements on which `f` fires. -/
theorem length_filterMap_eq_length_filter {α β : Type} (f : α → Option β) (l : List α) :
    (l.filterMap f).length = (l.filter (fun x => (f x).isSome)).length := by
  induction l with
  | nil => rfl
  | cons x xs ih =>
    cases h : f x <;>
      simp [List.filterMap_cons, List.filter_cons, h, ih]

/-- The parts loop keeps a part exactly when it is well-formed in the
claim's sense. -/
theorem partToMsg_isSome (p : PyVal) : (partToMsg p).isSome = wellFormedPart p := by
  cases p with
  | dict kvs =>
    by_cases hb : (pyGetD kvs "body" PyVal.none).truthy
    · cases h : Message.from_api_data kvs <;>
        simp [partToMsg, wellFormedPart, hb, h, Except.toOption, Except.toBool]
    · simp [partToMsg, wellFormedPart, hb]
  | none => rfl
  | bool b => rfl
  | int n => rfl
  | str s => rfl
  | list xs => rfl

/-- C7.  For a raw record with a convertible `conversation_message` and a
parts collection, conversion succeeds, the canonical conversation has
exactly `N + 1` messages where `N` counts the well-formed parts (a
mapping, truthy body, converting without error) — malformed parts are
skipped without aborting — and the messages are sorted ascending by
timestamp. -/
theorem c7_messages_count_and_sorted
    (data : List (String × PyVal)) (cm : PyVal) (cmKvs : List (String × PyVal))
    (m0 : Message) (parts : List PyVal) (idv : PyVal) (ca ua : Int) (tags : List PyVal)
    (hcm : pyLookup "conversation_message" data = some cm)
    (hmerge : mergedInitialMessage cm = .ok cmKvs)
    (hm0 : Message.from_api_data cmKvs = .ok m0)
    (hparts : rawParts data = .ok parts)
    (hid : pyLookup "id" data = some idv)
    (hca : pyLookup "created_at" data = some (.int ca))
    (hua : pyLookup "updated_at" data = some (.int ua))
    (htags : extractTags data = .ok tags) :
    ∃ conv, Conversation.from_api_data data = .ok conv ∧
      conv.messages.length = (parts.filter wellFormedPart).length + 1 ∧
      List.Sorted (fun a b => a.created_at ≤ b.created_at) conv.messages := by
  have hbm : buildMessages data = .ok (sortMessages (m0 :: parts.filterMap partToMsg)) := by
    simp [buildMessages, hcm, hmerge, hm0, hparts, bind, Except.bind, pure, Except.pure]
  refine ⟨⟨idv, ca + tzShift, ua + tzShift, pyGetD data "title" .none,
    pyGetD data "state" (.str "open"), sortMessages (m0 :: parts.filterMap partToMsg),
    pyGetD data "custom_attributes" (.dict []), tags, pyGetD data "source" (.dict []),
    data.filter (fun kv => kv.1 ∉ conversationModeledKeys)⟩, ?_, ?_, ?_⟩
  · simp [Conversation.from_api_data, hbm, pyIndex, hid, hca, hua, htags, pyTimestamp,
      bind, Except.bind, pure, Except.pure]
  · show (sortMessages (m0 :: parts.filterMap partToMsg)).length = _
    rw [sortMessages, (List.perm_insertionSort _ _).length_eq]
    rw [List.length_cons, length_filterMap_eq_length_filter]
    rw [List.filter_congr (fun p _ => partToMsg_isSome p)]
  · show List.Sorted _ (sortMessages (m0 :: parts.filterMap partToMsg))
    exact @List.sorted_insertionSort Message (fun a b => a.created_at ≤ b.created_at) _
      ⟨fun a b => Int.le_total a.created_at b.created_at⟩
      ⟨fun a b c hab hbc => le_trans hab hbc⟩ _

/-- C7, witness: the general theorem applied to the concrete record
`c7Raw`, whose five parts contain exactly two well-formed ones. -/
theorem c7_witness :
    (c7PartsList.filter wellFormedPart).length + 1 = 3 ∧
    ∃ conv, Conversation.from_api_data c7Raw = .ok conv ∧
      conv.messages.length = (c7PartsList.filter wellFormedPart).length + 1 ∧
      List.Sorted (fun a b => a.created_at ≤ b.created_at) conv.messages :=
  ⟨by rfl,
    c7_messages_count_and_sorted c7Raw c7Cm _ _ c7PartsList _ _ _ _
      rfl rfl rfl rfl rfl rfl rfl rfl⟩

/-- The halved batch only keeps ids of the original batch. -/
theorem halvedBatch_subset (B : List Ident) : halvedBatch B ⊆ B := by
  unfold halvedBatch
  split
  · exact List.take_subset _ _
  · exact fun x hx => hx

/-- Every batch the retry loop POSTs is a prefix (`take`) of the batch it
started from. -/
theorem batchAttempts_requests_take (oracle : Oracle) (f : Nat) :
    ∀ (B : List Ident) (a k : Nat) (r : List Ident),
      r ∈ (batchAttempts oracle f B a k).requests → ∃ m, r = B.take m := by
  induction f with
  | zero =>
    intro B a k r hr
    simp [batchAttempts] at hr
  | succ f ih =>
    intro B a k r hr
    rw [batchAttempts.eq_2] at hr
    cases ho : oracle B k with
    | ok body =>
      rw [ho] at hr
      obtain ⟨rid, convs⟩ := body
      simp only [Rec.convs] at hr
      rcases convs with _ | ⟨c0, cs0⟩
      · rcases B with _ | ⟨b0, bs0⟩
        · simp at hr
          exact ⟨0, by simp [hr]⟩
        · rcases bs0 with _ | ⟨b1, bs1⟩
          · simp at hr
            exact ⟨1, by simp [hr]⟩
          · simp at hr
            exact ⟨(b0 :: b1 :: bs1).length, by rw [hr, List.take_length]⟩
      · simp at hr
        exact ⟨B.length, by rw [hr, List.take_length]⟩
    | err e =>
      rw [ho] at hr
      cases e with
      | rateLimit ra =>
        cases f with
        | zero =>
          simp at hr
          exact ⟨B.length, by rw [hr, List.take_length]⟩
        | succ f' =>
          simp at hr
          rcases hr with hr | hr
          · exact ⟨B.length, by rw [hr, List.take_length]⟩
          · obtain ⟨m, hm⟩ := ih (halvedBatch B) (a + 1) (k + 1) r hr
            by_cases hb : B.length > 1
            · refine ⟨min m (B.length / 2), ?_⟩
              rw [hm]
              simp [halvedBatch, hb, List.take_take]
            · refine ⟨m, ?_⟩
              rw [hm]
              simp [halvedBatch, hb]
      | base msg =>
        simp at hr
        exact ⟨B.length, by rw [hr, List.take_length]⟩
      | auth =>
        simp at hr
        exact ⟨B.length, by rw [hr, List.take_length]⟩

/-- If the server only ever returns records whose ids belong to the
requested batch, every record a successful retry loop returns has its id
in the batch the loop started from. -/
theorem batchAttempts_ok_mem (oracle : Oracle)
    (hsound : ∀ B j body, oracle B j = .ok body →
      ∀ c ∈ body.convs, ∀ i, c.rid = some i → i ∈ B)
    (f : Nat) :
    ∀ (B : List Ident) (a k : Nat) (l : List Rec),
      (batchAttempts oracle f B a k).result = .ok l →
      ∀ c ∈ l, ∀ i, c.rid = some i → i ∈ B := by
  induction f with
  | zero =>
    intro B a k l hl c hc i hi
    simp [batchAttempts] at hl
    subst hl
    simp at hc
  | succ f ih =>
    intro B a k l hl c hc i hi
    rw [batchAttempts.eq_2] at hl
    cases ho : oracle B k with
    | ok body =>
      rw [ho] at hl
      obtain ⟨rid, convs⟩ := body
      simp only [Rec.convs] at hl
      rcases convs with _ | ⟨c0, cs0⟩
      · rcases B with _ | ⟨b0, bs0⟩
        · simp at hl
          subst hl
          simp at hc
        · rcases bs0 with _ | ⟨b1, bs1⟩
          · simp at hl
          · simp at hl
            subst hl
            simp at hc
      · simp at hl
        subst hl
        exact hsound _ k (.mk rid (c0 :: cs0)) ho c hc i hi
    | err e =>
      rw [ho] at hl
      cases e with
      | rateLimit ra =>
        cases f with
        | zero => simp at hl
        | succ f' =>
          have := ih (halvedBatch B) (a + 1) (k + 1) l hl c hc i hi
          exact halvedBatch_subset B this
      | base msg => simp at hl
      | auth => simp at hl

/-- C9.  When a batch with more than one id is rate-limited and retried,
the retry requests exactly the first (floor) half `batch.take (len/2)`;
the ids of the dropped second half `batch.drop (len/2)` appear in no
request of any subsequent attempt; and — provided the server only returns
records for requested ids — no record for a dropped id appears in the
returned result, which is passed through unchanged (so no error is raised
for the dropped ids either). -/
theorem c9_dropped_half_silently_lost (oracle : Oracle) (batch : List Ident)
    (k attempt f : Nat) (ra : Option Int)
    (hlen : 1 < batch.length) (hnd : batch.Nodup)
    (hrl : oracle batch k = .err (.rateLimit ra))
    (hsound : ∀ B j body, oracle B j = .ok body →
      ∀ c ∈ body.convs, ∀ i, c.rid = some i → i ∈ B) :
    (batchAttempts oracle (f + 2) batch attempt k).requests =
      batch :: (batchAttempts oracle (f + 1) (batch.take (batch.length / 2))
        (attempt + 1) (k + 1)).requests ∧
    (batchAttempts oracle (f + 2) batch attempt k).result =
      (batchAttempts oracle (f + 1) (batch.take (batch.length / 2))
        (attempt + 1) (k + 1)).result ∧
    (∀ r ∈ (batchAttempts oracle (f + 1) (batch.take (batch.length / 2))
        (attempt + 1) (k + 1)).requests,
      ∀ x ∈ batch.drop (batch.length / 2), x ∉ r) ∧
    (∀ l, (batchAttempts oracle (f + 1) (batch.take (batch.length / 2))
        (attempt + 1) (k + 1)).result = .ok l →
      ∀ c ∈ l, ∀ x ∈ batch.drop (batch.length / 2), ¬ c.rid = some x) := by
  have hhalv : halvedBatch batch = batch.take (batch.length / 2) := by
    simp [halvedBatch, hlen]
  have hdisj : List.Disjoint (batch.take (batch.length / 2))
      (batch.drop (batch.length / 2)) :=
    List.disjoint_take_drop hnd (le_refl _)
  have hstep : batchAttempts oracle (f + 2) batch attempt k =
      ⟨(batchAttempts oracle (f + 1) (halvedBatch batch) (attempt + 1) (k + 1)).result,
        batch :: (batchAttempts oracle (f + 1) (halvedBatch batch) (attempt + 1) (k + 1)).requests,
        retryWait ra attempt ::
          (batchAttempts oracle (f + 1) (halvedBatch batch) (attempt + 1) (k + 1)).waits,
        (batchAttempts oracle (f + 1) (halvedBatch batch) (attempt + 1) (k + 1)).next⟩ := by
    rw [batchAttempts.eq_2, hrl]
  refine ⟨?_, ?_, ?_, ?_⟩
  · rw [hstep, hhalv]
  · rw [hstep, hhalv]
  · intro r hr x hx hxr
    obtain ⟨m, rfl⟩ := batchAttempts_requests_take oracle (f + 1)
      (batch.take (batch.length / 2)) (attempt + 1) (k + 1) r hr
    have hxtake : x ∈ batch.take (batch.length / 2) :=
      List.take_subset _ _ hxr
    exact hdisj hxtake hx
  · intro l hl c hc x hx hcx
    have hxtake : x ∈ batch.take (batch.length / 2) :=
      batchAttempts_ok_mem oracle hsound (f + 1)
        (batch.take (batch.length / 2)) (attempt + 1) (k + 1) l hl c hc x hcx
    exact hdisj hxtake hx

/-- `rlOnceOracle` only returns records whose ids were requested. -/
theorem rlOnceOracle_sound :
    ∀ B j body, rlOnceOracle B j = .ok body →
      ∀ c ∈ body.convs, ∀ i, c.rid = some i → i ∈ B := by
  intro B j body h c hc i hi
  unfold rlOnceOracle at h
  by_cases hj : j = 0
  · simp [hj] at h
  · simp [hj] at h
    subst h
    have hc' : c ∈ (List.map (fun i => Rec.mk (some i) []) B).take 1 := hc
    have hc'' : c ∈ List.map (fun i => Rec.mk (some i) []) B :=
      List.take_subset _ _ hc'
    rw [List.mem_map] at hc''
    obtain ⟨x, hx, rfl⟩ := hc''
    have hix : some x = some i := hi
    cases hix
    exact hx

/-- C9, witness: the dropped-half behaviour at a concrete rate-limited
batch of three ids. -/
theorem c9_witness :
    (batchAttempts rlOnceOracle 3 [.num 1, .num 2, .num 3] 0 0).requests =
      [Ident.num 1, .num 2, .num 3] ::
        (batchAttempts rlOnceOracle 2 [Ident.num 1] 1 1).requests ∧
    Ident.num 3 ∉ [Ident.num 1] :=
  ⟨(c9_dropped_half_silently_lost rlOnceOracle [.num 1, .num 2, .num 3] 0 0 1
      Option.none (by decide) (by decide) rfl rlOnceOracle_sound).1,
    (c9_dropped_half_silently_lost rlOnceOracle [.num 1, .num 2, .num 3] 0 0 1
      Option.none (by decide) (by decide) rfl rlOnceOracle_sound).2.2.1
      [Ident.num 1] (by decide) (Ident.num 3) (by decide)⟩
